import Mathlib

/-!
Shallow embedding of the `MockProvider` mocking/stub framework from the
Apex source file `MockProvider.cls` (src/unnamed/part_003) of the blog
repository, together with proofs about its behaviour.

The embedded fragment is the only algorithmic core of the repository:
a call-interception stub that
  * serializes a method call `(name, args)` to a string signature
    (`serializeMethodCall`),
  * keeps a registry `Map<String, Object>` from signatures to configured
    return values (`mockReturnValues`),
  * has a recording flag `isSettingMockValue` and a pending-signature slot
    `serializedMethodCall`, driven by `setMock` / `handleMethodCall` /
    `mockReturnValue`.

Modelling conventions (Apex to Lean):
  * Apex `Object` values passed as arguments or return values are modelled
    by the inductive type `AValue`; the Apex literal `null` is `AValue.vnull`.
  * Apex `Boolean` and `String` fields are nullable; they are modelled as
    `Option Bool` / `Option String`, with `none` for `null`.
  * `Map<String, Object>` is modelled as an association list with unique
    keys; Apex maps accept `null` keys, so keys are `Option String`.
    `Map.put` is an upsert (`mapPut`); `Map.get` returns `null` for an
    absent key (`mapGet`).
  * Apex evaluates `if (b)` on a nullable `Boolean` by unboxing; when `b`
    is `null` this throws `System.NullPointerException`. `handleMethodCall`
    therefore returns `Except ApexException (MockProvider × AValue)`.
  * `System.debug` calls have no effect on state or result and are omitted.
-/

/-- Model of an Apex `Object` value as passed to / returned from a stubbed
method call. `vnull` is the Apex `null` literal. -/
inductive AValue where
  | vnull : AValue
  | vstr : String → AValue
  | vint : Int → AValue
  | vbool : Bool → AValue
  deriving DecidableEq, Repr

/-- Apex `String.valueOf` on an `Object`: the canonical textual form used by
`String.join`. `null` prints as `"null"`. -/
def stringValueOf : AValue → String
  | AValue.vnull => "null"
  | AValue.vstr s => s
  | AValue.vint n => toString n
  | AValue.vbool b => if b then "true" else "false"

/-- Apex `String.join(list, tail)` with separator `","`: elements joined by a
comma, the empty list giving the empty string. -/
def joinWithComma : List String → String
  | [] => ""
  | [s] => s
  | s :: rest => s ++ "," ++ joinWithComma rest

/-- `serializeMethodCall` (src/unnamed/part_003, lines 85-87):
`stubbedMethodName + '(' + String.join(listOfArgs, ',') + ')'`. -/
def serializeMethodCall (stubbedMethodName : String) (listOfArgs : List AValue) : String :=
  stubbedMethodName ++ "(" ++ joinWithComma (listOfArgs.map stringValueOf) ++ ")"

/-- Apex `Map<String, Object>.put`: unconditional upsert. Apex map keys are
nullable, hence `Option String`. -/
def mapPut (m : List (Option String × AValue)) (k : Option String) (v : AValue) :
    List (Option String × AValue) :=
  match m with
  | [] => [(k, v)]
  | (k', v') :: rest => if k' = k then (k, v) :: rest else (k', v') :: mapPut rest k v

/-- Apex `Map<String, Object>.get`: returns `null` (`AValue.vnull`) when the
key is absent — indistinguishable from a stored value of `null`. -/
def mapGet (m : List (Option String × AValue)) (k : Option String) : AValue :=
  match m with
  | [] => AValue.vnull
  | (k', v') :: rest => if k' = k then v' else mapGet rest k

/-- Apex runtime exceptions that the embedded fragment can raise. -/
inductive ApexException where
  | nullPointerException : ApexException
  deriving DecidableEq, Repr

/-- The fields of the `MockProvider` class (src/unnamed/part_003, lines 3-5):
`private Map<String, Object> mockReturnValues;`
`Boolean isSettingMockValue;` (nullable, never initialized),
`String serializedMethodCall;` (nullable, never initialized). -/
structure MockProvider where
  mockReturnValues : List (Option String × AValue)
  isSettingMockValue : Option Bool
  serializedMethodCall : Option String
  deriving DecidableEq, Repr

/-- The `MockProvider()` constructor (lines 7-9): initializes the map, leaves
`isSettingMockValue` and `serializedMethodCall` at their Apex default `null`. -/
def MockProvider.new : MockProvider :=
  { mockReturnValues := [], isSettingMockValue := none, serializedMethodCall := none }

/-- `startSettingMockValue` (lines 18-20): `isSettingMockValue = true`. -/
def startSettingMockValue (p : MockProvider) : MockProvider :=
  { p with isSettingMockValue := some true }

/-- `stopSettingMockValue` (lines 23-25): `isSettingMockValue = false`. -/
def stopSettingMockValue (p : MockProvider) : MockProvider :=
  { p with isSettingMockValue := some false }

/-- `setMock` (lines 30-33): calls `startSettingMockValue` and returns `this`;
the fluent return is modelled by returning the updated state. -/
def setMock (p : MockProvider) : MockProvider :=
  startSettingMockValue p

/-- `mockReturnValue` (lines 38-42): puts the pending signature (possibly the
`null` key) into the registry, clears the pending slot, and calls
`stopSettingMockValue`. The first parameter `returnValue` is unused by the
source, exactly as here; no precondition is checked and no exception is
raised (Apex `Map.put` accepts a `null` key). -/
def mockReturnValue (p : MockProvider) (returnValue : AValue) (mockVal : AValue) :
    MockProvider :=
  stopSettingMockValue
    { p with
      mockReturnValues := mapPut p.mockReturnValues p.serializedMethodCall mockVal,
      serializedMethodCall := none }

/-- `handleMethodCall` (lines 44-82). The `System.debug` statements are pure
logging and are omitted. Apex unboxes the nullable field in
`if (isSettingMockValue)`; when the field is still `null` (the constructor
never sets it) this throws `System.NullPointerException`, modelled as
`Except.error`. In recording mode the local signature is stored into the
field and `null` is returned; otherwise the registry is consulted with
`Map.get`. -/
def handleMethodCall (p : MockProvider) (stubbedMethodName : String)
    (listOfArgs : List AValue) : Except ApexException (MockProvider × AValue) :=
  let s := serializeMethodCall stubbedMethodName listOfArgs
  match p.isSettingMockValue with
  | none => Except.error ApexException.nullPointerException
  | some true => Except.ok ({ p with serializedMethodCall := some s }, AValue.vnull)
  | some false => Except.ok (p, mapGet p.mockReturnValues (some s))

/-- The externally visible operations on one `MockProvider` instance: the
fluent configuration calls and the intercepted method calls. -/
inductive Event where
  | setMockEv : Event
  | callEv : String → List AValue → Event
  | mockReturnValueEv : AValue → AValue → Event
  deriving DecidableEq, Repr

/-- One step of the provider under an event. An intercepted call that throws
(`NullPointerException` from the uninitialized flag) leaves the state
unchanged: the exception propagates before any field is assigned. -/
def applyEvent (p : MockProvider) : Event → MockProvider
  | Event.setMockEv => setMock p
  | Event.callEv m a =>
    match handleMethodCall p m a with
    | Except.ok (q, _) => q
    | Except.error _ => p
  | Event.mockReturnValueEv rv v => mockReturnValue p rv v

/-- Run a sequence of events from a given provider state. -/
def runEventsFrom (p : MockProvider) (es : List Event) : MockProvider :=
  es.foldl applyEvent p

/-- Run a sequence of events from a freshly constructed provider. -/
def runEvents (es : List Event) : MockProvider :=
  runEventsFrom MockProvider.new es

/-- Ghost-instrumented step: alongside the provider state it tracks whether at
least one intercepted call has occurred since the controller last entered
recording mode (a `setMock` while already recording does not restart the
session; `mockReturnValue` ends it). -/
def applyEventG (s : MockProvider × Bool) (e : Event) : MockProvider × Bool :=
  match e with
  | Event.setMockEv =>
    (setMock s.1, if s.1.isSettingMockValue = some true then s.2 else false)
  | Event.callEv m a =>
    match handleMethodCall s.1 m a with
    | Except.ok (q, _) => (q, if s.1.isSettingMockValue = some true then true else s.2)
    | Except.error _ => s
  | Event.mockReturnValueEv rv v => (mockReturnValue s.1 rv v, false)

/-- Whether at least one intercepted call has occurred since recording began,
after running the events from a fresh provider. -/
def callSinceRecordingBegan (es : List Event) : Bool :=
  (es.foldl applyEventG (MockProvider.new, false)).2

/- ### Helper lemmas -/

theorem mapGet_mapPut_self (m : List (Option String × AValue)) (k : Option String)
    (v : AValue) : mapGet (mapPut m k v) k = v := by
  induction m with
  | nil => simp [mapPut, mapGet]
  | cons hd tl ih =>
    by_cases h : hd.1 = k
    · simp [mapPut, mapGet, h]
    · simp [mapPut, mapGet, h, ih]

theorem mapGet_mapPut_ne (m : List (Option String × AValue)) (k k' : Option String)
    (v : AValue) (h : k' ≠ k) : mapGet (mapPut m k v) k' = mapGet m k' := by
  have h2 : ¬(k = k') := fun hh => h hh.symm
  induction m with
  | nil => simp [mapPut, mapGet, h2]
  | cons hd tl ih =>
    by_cases hk : hd.1 = k
    · simp [mapPut, mapGet, hk, h2]
    · by_cases hk' : hd.1 = k'
      · simp [mapPut, mapGet, hk, hk', h, ih]
      · simp [mapPut, mapGet, hk, hk', ih]

theorem string_append_cancel_left (m s t : String) (h : m ++ s = m ++ t) : s = t := by
  have hd := congrArg String.data h
  simp only [String.data_append] at hd
  exact String.ext (List.append_cancel_left hd)

theorem string_append_cancel_right (s t u : String) (h : s ++ u = t ++ u) : s = t := by
  have hd := congrArg String.data h
  simp only [String.data_append] at hd
  exact String.ext (List.append_cancel_right hd)

theorem serializeMethodCall_inj_join (m : String) (x y : List AValue)
    (h : serializeMethodCall m x = serializeMethodCall m y) :
    joinWithComma (x.map stringValueOf) = joinWithComma (y.map stringValueOf) := by
  unfold serializeMethodCall at h
  simp only [String.append_assoc] at h
  have h1 := string_append_cancel_left _ _ _ h
  have h2 := string_append_cancel_left _ _ _ h1
  exact string_append_cancel_right _ _ _ h2

theorem runEventsFrom_cons (p : MockProvider) (e : Event) (es : List Event) :
    runEventsFrom p (e :: es) = runEventsFrom (applyEvent p e) es := rfl

theorem runEventsFrom_append (p : MockProvider) (es fs : List Event) :
    runEventsFrom p (es ++ fs) = runEventsFrom (runEventsFrom p es) fs := by
  simp [runEventsFrom, List.foldl_append]

/-- While the provider is recording, a block of intercepted calls leaves the
registry and the flag untouched and overwrites the pending slot with the
signature of the last call. -/
theorem runCalls_recording (m : String) (a : List AValue) :
    ∀ (calls : List (String × List AValue)) (p : MockProvider),
      p.isSettingMockValue = some true →
      runEventsFrom p ((calls ++ [(m, a)]).map (fun c => Event.callEv c.1 c.2)) =
        { p with serializedMethodCall := some (serializeMethodCall m a) } := by
  intro calls
  induction calls with
  | nil =>
    intro p hf
    simp [runEventsFrom, applyEvent, handleMethodCall, hf]
  | cons c tl ih =>
    intro p hf
    rw [List.cons_append, List.map_cons, runEventsFrom_cons]
    have hstep : applyEvent p (Event.callEv c.1 c.2)
        = { p with serializedMethodCall := some (serializeMethodCall c.1 c.2) } := by
      simp [applyEvent, handleMethodCall, hf]
    rw [hstep, ih { p with serializedMethodCall := some (serializeMethodCall c.1 c.2) } hf]

/-- Invariant relating the pending slot, the recording flag, and the ghost bit
that tracks whether an intercepted call has occurred since recording began. -/
def RecInv (s : MockProvider × Bool) : Prop :=
  s.1.serializedMethodCall ≠ none ↔ (s.1.isSettingMockValue = some true ∧ s.2 = true)

theorem recInv_applyEventG (s : MockProvider × Bool) (e : Event) (h : RecInv s) :
    RecInv (applyEventG s e) := by
  obtain ⟨p, g⟩ := s
  cases e with
  | setMockEv =>
    by_cases hf : p.isSettingMockValue = some true <;>
      simp_all [RecInv, applyEventG, setMock, startSettingMockValue, hf]
  | callEv m a =>
    rcases hf : p.isSettingMockValue with _ | b
    · simp_all [RecInv, applyEventG, handleMethodCall, hf]
    · cases b
      · simp_all [RecInv, applyEventG, handleMethodCall, hf]
      · simp_all [RecInv, applyEventG, handleMethodCall, hf]
  | mockReturnValueEv rv v =>
    simp [RecInv, applyEventG, mockReturnValue, stopSettingMockValue]

theorem recInv_foldl (es : List Event) :
    ∀ s : MockProvider × Bool, RecInv s → RecInv (es.foldl applyEventG s) := by
  induction es with
  | nil => intro s h; simpa using h
  | cons e tl ih => intro s h; exact ih _ (recInv_applyEventG s e h)

theorem applyEventG_fst (s : MockProvider × Bool) (e : Event) :
    (applyEventG s e).1 = applyEvent s.1 e := by
  cases e with
  | setMockEv => rfl
  | callEv m a =>
    cases hr : handleMethodCall s.1 m a with
    | error ex => simp [applyEventG, applyEvent, hr]
    | ok q => simp [applyEventG, applyEvent, hr]
  | mockReturnValueEv rv v => rfl

theorem foldl_applyEventG_fst (es : List Event) :
    ∀ s : MockProvider × Bool, (es.foldl applyEventG s).1 = runEventsFrom s.1 es := by
  induction es with
  | nil => intro s; rfl
  | cons e tl ih =>
    intro s
    rw [List.foldl_cons, ih, runEventsFrom_cons, applyEventG_fst]

/- ### Claim theorems -/

/-- C1: round-trip. From any starting provider state (in particular any Idle
state), running `setMock`, then an intercepted call of `m` with arguments `a`,
then `mockReturnValue _ v`, and afterwards intercepting a call of `m` with the
same arguments `a` (the provider is then in Idle state, flag `some false`)
returns exactly `v` and raises no exception. -/
theorem C1_roundTrip (p : MockProvider) (m : String) (a : List AValue) (rv v : AValue) :
    handleMethodCall
        (runEventsFrom p [Event.setMockEv, Event.callEv m a, Event.mockReturnValueEv rv v])
        m a =
      Except.ok
        (runEventsFrom p [Event.setMockEv, Event.callEv m a, Event.mockReturnValueEv rv v],
          v) := by
  have hq : runEventsFrom p [Event.setMockEv, Event.callEv m a, Event.mockReturnValueEv rv v]
      = { mockReturnValues := mapPut p.mockReturnValues (some (serializeMethodCall m a)) v,
          isSettingMockValue := some false, serializedMethodCall := none } := by
    simp [runEventsFrom, applyEvent, setMock, startSettingMockValue, handleMethodCall,
      mockReturnValue, stopSettingMockValue]
  rw [hq]
  simp [handleMethodCall, mapGet_mapPut_self]

/-- C2: the claim says an unconfigured call never throws in every reachable
state, including a freshly constructed provider. The code violates this: the
constructor never initializes the `Boolean isSettingMockValue` field, so the
first intercepted call on a fresh provider unboxes a null `Boolean` in
`if (isSettingMockValue)` and throws `System.NullPointerException` instead of
returning the absence value. This theorem evaluates the code at the failing
input. -/
theorem C2_freshProviderThrows :
    handleMethodCall MockProvider.new "getTodos" []
      = Except.error ApexException.nullPointerException := rfl

/-- C3 counterexample: `mockReturnValue` called on a fresh provider (Idle-like,
empty pending slot) raises no usage error at all — it silently inserts the
value into the registry under the null signature key and resets the state. -/
theorem C3_counterexample :
    mockReturnValue MockProvider.new AValue.vnull (AValue.vstr "x")
      = { mockReturnValues := [(none, AValue.vstr "x")],
          isSettingMockValue := some false, serializedMethodCall := none } := rfl

/-- C3 amended: calling `mockReturnValue` with an empty pending slot (in
particular without a preceding `setMock` plus intercepted call) does not raise
any error: it silently upserts the value under the null key, clears the slot,
and sets the controller to Idle. -/
theorem C3_amended_silentNullKeyPut (p : MockProvider) (rv v : AValue)
    (h : p.serializedMethodCall = none) :
    mockReturnValue p rv v
      = { mockReturnValues := mapPut p.mockReturnValues none v,
          isSettingMockValue := some false, serializedMethodCall := none } := by
  simp [mockReturnValue, stopSettingMockValue, h]

/-- C3 witness: the amended statement at a concrete input. -/
theorem C3_amended_witness :
    MockProvider.new.serializedMethodCall = none
    ∧ mockReturnValue MockProvider.new AValue.vnull (AValue.vstr "y")
        = { mockReturnValues := mapPut MockProvider.new.mockReturnValues none (AValue.vstr "y"),
            isSettingMockValue := some false, serializedMethodCall := none } :=
  ⟨rfl, C3_amended_silentNullKeyPut MockProvider.new AValue.vnull (AValue.vstr "y") rfl⟩

/-- C4 counterexample: configure `f()` to return null, then intercept `f()`
(configured to null) and `g()` (never configured) in Idle state: both return
exactly the same value, `AValue.vnull` — a configured null is observably
identical to an unconfigured call, because `handleMethodCall` resolves with
`Map.get` alone and never consults a found flag. -/
theorem C4_counterexample :
    handleMethodCall (runEvents [Event.setMockEv, Event.callEv "f" [],
        Event.mockReturnValueEv AValue.vnull AValue.vnull]) "f" []
      = Except.ok (runEvents [Event.setMockEv, Event.callEv "f" [],
        Event.mockReturnValueEv AValue.vnull AValue.vnull], AValue.vnull)
    ∧ handleMethodCall (runEvents [Event.setMockEv, Event.callEv "f" [],
        Event.mockReturnValueEv AValue.vnull AValue.vnull]) "g" []
      = Except.ok (runEvents [Event.setMockEv, Event.callEv "f" [],
        Event.mockReturnValueEv AValue.vnull AValue.vnull], AValue.vnull) := ⟨rfl, rfl⟩

/-- C4 amended: a call configured via the fluent API to return null is
observably indistinguishable in Idle state from a call that was never
configured: both produce `Except.ok` with value `AValue.vnull`. -/
theorem C4_amended_nullIndistinguishable (m m' : String) (a a' : List AValue) (rv : AValue)
    (h : serializeMethodCall m' a' ≠ serializeMethodCall m a) :
    handleMethodCall (runEvents [Event.setMockEv, Event.callEv m a,
        Event.mockReturnValueEv rv AValue.vnull]) m a
      = Except.ok (runEvents [Event.setMockEv, Event.callEv m a,
        Event.mockReturnValueEv rv AValue.vnull], AValue.vnull)
    ∧ handleMethodCall (runEvents [Event.setMockEv, Event.callEv m a,
        Event.mockReturnValueEv rv AValue.vnull]) m' a'
      = Except.ok (runEvents [Event.setMockEv, Event.callEv m a,
        Event.mockReturnValueEv rv AValue.vnull], AValue.vnull) := by
  have hq : runEvents [Event.setMockEv, Event.callEv m a,
        Event.mockReturnValueEv rv AValue.vnull]
      = { mockReturnValues := [(some (serializeMethodCall m a), AValue.vnull)],
          isSettingMockValue := some false, serializedMethodCall := none } := by
    simp [runEvents, runEventsFrom, applyEvent, setMock, startSettingMockValue,
      handleMethodCall, mockReturnValue, stopSettingMockValue, MockProvider.new, mapPut]
  constructor
  · rw [hq]
    simp [handleMethodCall, mapGet]
  · rw [hq]
    simp [handleMethodCall, mapGet, h.symm]

/-- C4 witness: the amended statement at a concrete input. -/
theorem C4_amended_witness :
    serializeMethodCall "g" [] ≠ serializeMethodCall "f" []
    ∧ (handleMethodCall (runEvents [Event.setMockEv, Event.callEv "f" [],
          Event.mockReturnValueEv AValue.vnull AValue.vnull]) "f" []
        = Except.ok (runEvents [Event.setMockEv, Event.callEv "f" [],
          Event.mockReturnValueEv AValue.vnull AValue.vnull], AValue.vnull)
      ∧ handleMethodCall (runEvents [Event.setMockEv, Event.callEv "f" [],
          Event.mockReturnValueEv AValue.vnull AValue.vnull]) "g" []
        = Except.ok (runEvents [Event.setMockEv, Event.callEv "f" [],
          Event.mockReturnValueEv AValue.vnull AValue.vnull], AValue.vnull)) :=
  ⟨by decide, C4_amended_nullIndistinguishable "f" "g" [] [] AValue.vnull (by decide)⟩

/-- C5 counterexample: the zero-argument signature of `f` is NOT different
from the signature of a one-argument call of `f` whose sole argument (the
empty string) serializes to the empty string — both are the string `f()`. -/
theorem C5_counterexample :
    stringValueOf (AValue.vstr "") = ""
    ∧ serializeMethodCall "f" [] = serializeMethodCall "f" [AValue.vstr ""]
    ∧ serializeMethodCall "f" [] = "f()" := ⟨rfl, rfl, rfl⟩

/-- C5 amended: for every method name `m` and every argument `x` whose
canonical string form is empty, the serialized signature of the one-argument
call coincides with the zero-argument signature; the two calls are therefore
not distinguishable. -/
theorem C5_amended_zeroArgCollision (m : String) (x : AValue)
    (h : stringValueOf x = "") :
    serializeMethodCall m [x] = serializeMethodCall m [] := by
  simp [serializeMethodCall, joinWithComma, h]

/-- C5 witness: the amended statement at a concrete input. -/
theorem C5_amended_witness :
    stringValueOf (AValue.vstr "") = ""
    ∧ serializeMethodCall "g" [AValue.vstr ""] = serializeMethodCall "g" [] :=
  ⟨rfl, C5_amended_zeroArgCollision "g" (AValue.vstr "") rfl⟩

/-- C6 counterexample: while recording, the intercepted call does store its
signature into the pending slot, but the value it returns is `null`
(`AValue.vnull`) — exactly the value an Idle-state unconfigured call returns
(and the value of a call configured to null), so the recording-mode return
value can be mistaken for a real return value and carries the same null
semantics. -/
theorem C6_counterexample :
    handleMethodCall (setMock MockProvider.new) "f" []
      = Except.ok ({ mockReturnValues := [],
                     isSettingMockValue := some true,
                     serializedMethodCall := some "f()" }, AValue.vnull)
    ∧ handleMethodCall { mockReturnValues := [],
                         isSettingMockValue := some false,
                         serializedMethodCall := none } "f" []
      = Except.ok ({ mockReturnValues := [],
                     isSettingMockValue := some false,
                     serializedMethodCall := none }, AValue.vnull) := ⟨rfl, rfl⟩

/-- C6 amended: whenever the controller is recording, an intercepted call
stores its signature into the pending slot and returns `null` — not a
distinguishable placeholder: the same value as the absence value for
unconfigured Idle calls. -/
theorem C6_amended_recordingReturnsNull (p : MockProvider) (m : String)
    (a : List AValue) (h : p.isSettingMockValue = some true) :
    handleMethodCall p m a
      = Except.ok ({ p with serializedMethodCall := some (serializeMethodCall m a) },
          AValue.vnull) := by
  simp [handleMethodCall, h]

/-- C6 witness: the amended statement at a concrete input. -/
theorem C6_amended_witness :
    (setMock MockProvider.new).isSettingMockValue = some true
    ∧ handleMethodCall (setMock MockProvider.new) "g" []
        = Except.ok ({ setMock MockProvider.new with
            serializedMethodCall := some (serializeMethodCall "g" []) }, AValue.vnull) :=
  ⟨rfl, C6_amended_recordingReturnsNull (setMock MockProvider.new) "g" [] rfl⟩

/-- C7: in every provider state reachable from a fresh provider by sequences
of `setMock`, intercepted calls, and `mockReturnValue`, the pending slot
`serializedMethodCall` is non-empty if and only if `isSettingMockValue` is
true and at least one intercepted call has occurred since the controller
entered recording mode (tracked by `callSinceRecordingBegan`; a `setMock`
while already recording does not restart the session). -/
theorem C7_recordingState_invariant (es : List Event) :
    (runEvents es).serializedMethodCall ≠ none ↔
      ((runEvents es).isSettingMockValue = some true
        ∧ callSinceRecordingBegan es = true) := by
  have h := recInv_foldl es (MockProvider.new, false)
    (by simp [RecInv, MockProvider.new])
  unfold RecInv at h
  rw [foldl_applyEventG_fst] at h
  exact h

/-- C8: last call before commit wins. For every starting state, every
nonempty block of intercepted calls between `setMock` and
`mockReturnValue _ v` leaves the registry updated at exactly one key — the
signature of the last intercepted call — with value `v`; the earlier calls
of the block have no effect on the final state, and the pending slot and
recording flag are reset. -/
theorem C8_lastCallWins (p : MockProvider) (calls : List (String × List AValue))
    (m : String) (a : List AValue) (rv v : AValue) :
    runEventsFrom p
        (Event.setMockEv ::
          ((calls ++ [(m, a)]).map (fun c => Event.callEv c.1 c.2)
            ++ [Event.mockReturnValueEv rv v])) =
      { mockReturnValues := mapPut p.mockReturnValues (some (serializeMethodCall m a)) v,
        isSettingMockValue := some false,
        serializedMethodCall := none } := by
  rw [runEventsFrom_cons, runEventsFrom_append]
  have h1 : applyEvent p Event.setMockEv = setMock p := rfl
  rw [h1, runCalls_recording m a calls (setMock p) rfl]
  simp [runEventsFrom, applyEvent, mockReturnValue, stopSettingMockValue, setMock,
    startSettingMockValue]

/-- C9: argument-order sensitivity. For every method name `m`, configuring
the call of `m` with arguments `[1, 2]` to return the string `x` does not
affect a later Idle-state intercepted call of `m` with arguments `[2, 1]`:
the serialized signatures differ, so the latter resolves as unconfigured and
returns the absence value `null`. -/
theorem C9_argumentOrder (m : String) (rv : AValue) :
    handleMethodCall
        (runEvents [Event.setMockEv, Event.callEv m [AValue.vint 1, AValue.vint 2],
          Event.mockReturnValueEv rv (AValue.vstr "x")])
        m [AValue.vint 2, AValue.vint 1] =
      Except.ok
        (runEvents [Event.setMockEv, Event.callEv m [AValue.vint 1, AValue.vint 2],
          Event.mockReturnValueEv rv (AValue.vstr "x")], AValue.vnull) := by
  have hne : serializeMethodCall m [AValue.vint 1, AValue.vint 2]
      ≠ serializeMethodCall m [AValue.vint 2, AValue.vint 1] := by
    intro he
    exact absurd (serializeMethodCall_inj_join m _ _ he) (by decide)
  have hq : runEvents [Event.setMockEv, Event.callEv m [AValue.vint 1, AValue.vint 2],
        Event.mockReturnValueEv rv (AValue.vstr "x")]
      = { mockReturnValues :=
            [(some (serializeMethodCall m [AValue.vint 1, AValue.vint 2]), AValue.vstr "x")],
          isSettingMockValue := some false, serializedMethodCall := none } := by
    simp [runEvents, runEventsFrom, applyEvent, setMock, startSettingMockValue,
      handleMethodCall, mockReturnValue, stopSettingMockValue, MockProvider.new, mapPut]
  rw [hq]
  simp [handleMethodCall, mapGet, hne]

/-- C10: the serializer is not injective on argument lists. The single
argument `"1,2"` and the two arguments `"1"`, `"2"` are distinct argument
lists with the same serialized signature, and configuring a return value for
the one-argument call changes the value returned for the two-argument call
(from the absence value `null` to the configured value). -/
theorem C10_serializerCollision :
    serializeMethodCall "f" [AValue.vstr "1,2"]
      = serializeMethodCall "f" [AValue.vstr "1", AValue.vstr "2"]
    ∧ ([AValue.vstr "1,2"] : List AValue) ≠ [AValue.vstr "1", AValue.vstr "2"]
    ∧ handleMethodCall { mockReturnValues := [],
                         isSettingMockValue := some false,
                         serializedMethodCall := none } "f"
          [AValue.vstr "1", AValue.vstr "2"]
      = Except.ok ({ mockReturnValues := [],
                     isSettingMockValue := some false,
                     serializedMethodCall := none }, AValue.vnull)
    ∧ handleMethodCall (runEvents [Event.setMockEv, Event.callEv "f" [AValue.vstr "1,2"],
          Event.mockReturnValueEv AValue.vnull (AValue.vstr "v")]) "f"
          [AValue.vstr "1", AValue.vstr "2"]
      = Except.ok (runEvents [Event.setMockEv, Event.callEv "f" [AValue.vstr "1,2"],
          Event.mockReturnValueEv AValue.vnull (AValue.vstr "v")], AValue.vstr "v") :=
  ⟨rfl, by decide, rfl, rfl⟩
